import Mathlib

/-!
# Verification of the se-leg-op OpenID Connect provider core

A shallow embedding of the provider request/response engine and the
Authorization State machine of the se-leg-op repository, together with
proofs about the behaviour its specification claims.

The repository ships only the vetting-process glue
(`se_leg_op/service/vetting_process_tools.py`) and the provider test
suite (`tests/test_provider.py`); the provider engine itself
(`se_leg_op.provider`, `se_leg_op.authz_state`, ...) is imported by the
tests but its source is not part of the given material.  Definitions for
the engine are therefore modelled from the specification document
(marked `Modelled from the spec:`); the two functions of
`vetting_process_tools.py` are translated directly from their source.

Conventions of the embedding:
* Python dicts keyed by strings become association lists with
  first-match lookup (`lookupA`); a dict assignment becomes a prepended
  entry (lookup-equivalent), a dict deletion removes every entry with
  the key.
* Time is an integer parameter `now` passed to every operation that the
  Python code serves from the ambient clock.
* External cryptographic primitives (the subject-identifier hash, the
  `c_hash`/`at_hash` left-half token hash) and external randomness
  (unguessable token values, `uuid.uuid4`) are function parameters or a
  deterministic fresh-name counter; the spec only requires freshness
  and determinism of these, never their bit-level values.
* JWT signing is external: an ID Token is represented by its claim set.
-/

/-- First-match lookup in an association list, the model of a Python
dict read (`d[k]` / `d.get(k)`). -/
def lookupA {α : Type} (k : String) : List (String × α) → Option α
  | [] => none
  | (k2, v) :: rest => if k2 = k then some v else lookupA k rest

/-- Removal of every entry under a key, the model of a Python dict
deletion (`del d[k]`). -/
def removeA {α : Type} (k : String) (l : List (String × α)) : List (String × α) :=
  l.filter (fun e => !(e.1 = k))

/-- Claim values appearing in tokens and userinfo responses: strings,
integers (times), and string lists (`aud`). -/
inductive TVal where
  | s (v : String)
  | n (v : Int)
  | ls (v : List String)
deriving DecidableEq, Repr

/-- Modelled from the spec: the validated set of protocol parameters of
an authentication request (spec section 3, AuthenticationRequest).
`scope` and `response_type` are already split on spaces; the `claims`
parameter is kept per location as a list of requested claim names, each
with an optional explicit `value` constraint. -/
structure AuthnRequest where
  scope : List String := ["openid"]
  response_type : List String := ["code"]
  client_id : String := ""
  redirect_uri : String := ""
  state : Option String := none
  nonce : Option String := none
  response_mode : Option String := none
  claims_userinfo : List (String × Option String) := []
  claims_id_token : List (String × Option String) := []
deriving DecidableEq, Repr

/-- Modelled from the spec: registered client metadata (spec section 3,
Client), owned by the external registry. -/
structure Client where
  client_secret : Option String := none
  redirect_uris : List String := []
  response_types : List (List String) := []
  subject_type : String := "pairwise"
  token_endpoint_auth_method : String := "client_secret_post"

/-- Modelled from the spec: an issued authorization code's metadata
(spec section 3, AuthorizationCode): owning request snapshot, bound
subject identifier, issued-at, expiry and the single-use flag. -/
structure AuthzCodeInfo where
  request : AuthnRequest
  sub : String
  iat : Int
  exp : Int
  used : Bool
deriving DecidableEq, Repr

/-- Modelled from the spec: an issued access token's metadata (spec
section 3, AccessToken): request snapshot, bound subject, scope,
issued-at and expiry. -/
structure AccessTokenInfo where
  request : AuthnRequest
  sub : String
  scope : List String
  iat : Int
  exp : Int
deriving DecidableEq, Repr

/-- Modelled from the spec: an issued refresh token's metadata (spec
section 3, RefreshToken): linked access-token value, bound subject,
scope, request snapshot, issued-at and expiry. -/
structure RefreshTokenInfo where
  access_token_value : String
  request : AuthnRequest
  sub : String
  scope : List String
  iat : Int
  exp : Int
deriving DecidableEq, Repr

/-- Modelled from the spec: the Authorization State (spec section 4.2).
It owns the three logical stores keyed by opaque token values, the
subject-identifier index, the configured lifetimes and the
refresh-token rotation threshold.  The hash of the
HashBasedSubjectIdentifierFactory is an external primitive, carried as
the function field `hash_fn` together with its salt; fresh unguessable
token values are modelled by the monotone counter `counter`. -/
structure AuthorizationState where
  hash_fn : String → String
  salt : String := "salt"
  authorization_codes : List (String × AuthzCodeInfo) := []
  access_tokens : List (String × AccessTokenInfo) := []
  refresh_tokens : List (String × RefreshTokenInfo) := []
  subject_identifiers : List (String × String) := []
  authorization_code_lifetime : Int := 600
  access_token_lifetime : Int := 3600
  refresh_token_lifetime : Int := 86400
  refresh_token_threshold : Int := 100
  counter : Nat := 0

/-- Modelled from the spec: minting of a fresh opaque token value.  The
real store draws cryptographically unguessable random strings; the spec
requires only that every minted value is fresh and unique, which the
counter provides. -/
def mintValue (s : AuthorizationState) : String × AuthorizationState :=
  ("v" ++ toString s.counter, { s with counter := s.counter + 1 })

/-- Modelled from the spec: `create_authorization_code(request, subject)`
mints a fresh value and records the full metadata with
`exp = now + authorization_code_lifetime` and the single-use flag
cleared (spec sections 3 and 4.2). -/
def create_authorization_code (s : AuthorizationState) (req : AuthnRequest)
    (sub : String) (now : Int) : String × AuthorizationState :=
  let m := mintValue s
  (m.1, { m.2 with authorization_codes :=
      (m.1, { request := req, sub := sub, iat := now,
              exp := now + s.authorization_code_lifetime, used := false })
        :: m.2.authorization_codes })

/-- Modelled from the spec: `create_access_token(request, subject)`
mints a fresh value and records request snapshot, subject, scope,
issued-at and expiry (spec sections 3 and 4.2).  The scope is passed
explicitly because the refresh flow may override the request's scope. -/
def create_access_token (s : AuthorizationState) (req : AuthnRequest)
    (sub : String) (scope : List String) (now : Int) : String × AuthorizationState :=
  let m := mintValue s
  (m.1, { m.2 with access_tokens :=
      (m.1, { request := req, sub := sub, scope := scope, iat := now,
              exp := now + s.access_token_lifetime })
        :: m.2.access_tokens })

/-- Modelled from the spec: `create_refresh_token(access_token_value)`
looks the access token up and mints a refresh token bound to it (spec
section 4.2); an unknown access-token value yields no token. -/
def create_refresh_token (s : AuthorizationState) (atv : String) (now : Int) :
    Option (String × AuthorizationState) :=
  match lookupA atv s.access_tokens with
  | none => none
  | some tok =>
    let m := mintValue s
    some (m.1, { m.2 with refresh_tokens :=
        (m.1, { access_token_value := atv, request := tok.request, sub := tok.sub,
                scope := tok.scope, iat := now,
                exp := now + s.refresh_token_lifetime })
          :: m.2.refresh_tokens })

/-- Modelled from the spec: `get_subject_identifier(subject_type,
user_id, sector)` derives the subject identifier — for `pairwise`
clients `hash(sector_identifier || user_id || salt)` (spec section 3,
SubjectIdentifier) — and records it in the bidirectional
subject-to-user index owned by Authorization State. -/
def get_subject_identifier (s : AuthorizationState) (subject_type user_id sector : String) :
    String × AuthorizationState :=
  let sub := if subject_type = "pairwise"
    then s.hash_fn (sector ++ user_id ++ s.salt)
    else s.hash_fn (user_id ++ s.salt)
  (sub, { s with subject_identifiers := (sub, user_id) :: s.subject_identifiers })

/-- Modelled from the spec: `get_user_id_for_subject_identifier` reads
the subject-to-user index; an unknown subject yields a lookup failure
(spec section 4.2). -/
def get_user_id_for_subject_identifier (s : AuthorizationState) (sub : String) :
    Option String :=
  lookupA sub s.subject_identifiers

/-- Modelled from the spec: `should_fragment_encode(auth_req)` (spec
section 4.1): an explicit `response_mode` of `fragment` or `query`
always wins; otherwise fragment encoding is required exactly when the
response_type set contains `id_token` or `token`. -/
def should_fragment_encode (req : AuthnRequest) : Bool :=
  match req.response_mode with
  | some "fragment" => true
  | some "query" => false
  | _ => req.response_type.contains "id_token" || req.response_type.contains "token"

/-- Modelled from the spec: the error taxonomy of spec section 7. -/
inductive OpError where
  | invalidAuthenticationRequest (msg : String)
  | authorizationError (msg : String)
  | invalidTokenRequest (msg : String)
  | invalidClientAuthentication (msg : String)
  | invalidUserinfoRequest (msg : String)
  | bearerTokenError (msg : String)
  | invalidAccessToken (msg : String)
deriving DecidableEq, Repr

/-- Modelled from the spec: extra ID-Token claims supplied either as a
static mapping or as a callable of (user_id, client_id) (spec
section 9, claims-as-callable-or-mapping). -/
inductive ExtraClaims where
  | static (m : List (String × TVal))
  | computed (f : String → String → List (String × TVal))

/-- Resolution of the extra-claims variant right before ID-Token
assembly (spec section 9). -/
def resolveExtra : Option ExtraClaims → String → String → List (String × TVal)
  | none, _, _ => []
  | some (.static m), _, _ => m
  | some (.computed f), uid, cid => f uid cid

/-- Modelled from the spec: the Provider engine's static configuration
(spec section 4.1): issuer, client registry, user claims store,
ID-Token lifetime, and the external left-half token hash used for
`c_hash`/`at_hash` (the half-length, left-half hash of the UTF-8 value
using the hash matching the ID Token's signing algorithm — an external
primitive, carried as a function field). -/
structure Provider where
  issuer : String
  clients : List (String × Client)
  userinfo : List (String × List (String × TVal))
  id_token_lifetime : Int := 3600
  left_hash : String → String

/-- Modelled from the spec: the standard OIDC scope-to-userinfo-claims
mapping consulted by the Claims Resolver (spec section 4.4). -/
def scope2claims : String → List String
  | "profile" => ["name", "family_name", "given_name", "middle_name", "nickname",
                  "preferred_username", "profile", "picture", "website", "gender",
                  "birthdate", "zoneinfo", "locale", "updated_at"]
  | "email" => ["email", "email_verified"]
  | "address" => ["address"]
  | "phone" => ["phone_number", "phone_number_verified"]
  | _ => []

/-- The claim names destined for the userinfo response: scope-implied
claims unioned with the claims explicitly requested at the `userinfo`
location (spec section 4.4). -/
def userinfoClaimNames (scope : List String) (claims_userinfo : List (String × Option String)) :
    List String :=
  scope.flatMap scope2claims ++ claims_userinfo.map (fun e => e.1)

/-- The claim names destined for the ID Token: the claims explicitly
requested at the `id_token` location, plus — only when no
userinfo-producing token (access token now or via a code later) will be
issued — the userinfo-eligible claims folded into the ID Token (spec
sections 4.1 and 4.4). -/
def idTokenClaimNames (req : AuthnRequest) : List String :=
  req.claims_id_token.map (fun e => e.1) ++
    (if req.response_type.contains "token" || req.response_type.contains "code"
     then []
     else userinfoClaimNames req.scope req.claims_userinfo)

/-- Resolution of a list of claim names against the user claims store:
each name present in the user's attribute set contributes its value. -/
def resolveClaimValues (p : Provider) (user_id : String) (names : List String) :
    List (String × TVal) :=
  match lookupA user_id p.userinfo with
  | none => []
  | some attrs => names.filterMap (fun n => (lookupA n attrs).map (fun v => (n, v)))

/-- Modelled from the spec: assembly of the ID Token claim set (spec
sections 3 and 4.1).  Resolved user claims come first in precedence
order from the right: extra claims are merged last among them (highest
precedence, able to override resolved claims, spec section 4.1), while
the protocol base claims — `iss`, `sub`, `aud`, `iat`,
`exp = iat + id_token_lifetime`, the echoed `nonce`, and
`c_hash`/`at_hash` exactly when a code / access token is co-issued —
always survive, per the spec's invariants that an ID Token's `aud`
always contains the requesting client_id and its claims always include
`iss` and `exp = iat + configured_lifetime` (spec sections 3 and 8).
With first-match lookup, earlier entries take precedence. -/
def mkIdTokenClaims (p : Provider) (req : AuthnRequest) (sub : String) (now : Int)
    (code access_token : Option String)
    (userClaims extraClaims : List (String × TVal)) : List (String × TVal) :=
  [("iss", TVal.s p.issuer), ("sub", TVal.s sub), ("aud", TVal.ls [req.client_id]),
   ("iat", TVal.n now), ("exp", TVal.n (now + p.id_token_lifetime))] ++
  (match req.nonce with | some nn => [("nonce", TVal.s nn)] | none => []) ++
  (match code with | some c => [("c_hash", TVal.s (p.left_hash c))] | none => []) ++
  (match access_token with | some a => [("at_hash", TVal.s (p.left_hash a))] | none => []) ++
  extraClaims ++ userClaims

/-- The explicit `sub` value constraints of a claims request, collected
across the `userinfo` and `id_token` locations. -/
def requestedSubs (req : AuthnRequest) : List String :=
  (match lookupA "sub" req.claims_userinfo with
   | some (some v) => [v]
   | _ => []) ++
  (match lookupA "sub" req.claims_id_token with
   | some (some v) => [v]
   | _ => [])

/-- Modelled from the spec: reconciliation of explicit `sub`
constraints (spec sections 4.1 and 4.4): constraints at different
locations that disagree are rejected with the dedicated message, and an
agreed constraint must match the actual resolved subject identifier. -/
def checkSubConstraints (req : AuthnRequest) (sub : String) : Except OpError Unit :=
  match requestedSubs req with
  | [] => Except.ok ()
  | [v] =>
    if v = sub then Except.ok ()
    else Except.error (OpError.authorizationError "requested sub not matching")
  | v1 :: v2 :: _ =>
    if v1 = v2 then
      (if v1 = sub then Except.ok ()
       else Except.error (OpError.authorizationError "requested sub not matching"))
    else Except.error (OpError.authorizationError "different sub values requested")

/-- Modelled from the spec: a successful authorization response (spec
section 6): any of code, access_token (with token_type and expires_in),
id_token (represented by its claim set; signing is external), and the
echoed state. -/
structure AuthzResponse where
  code : Option String
  access_token : Option String
  token_type : Option String
  expires_in : Option Int
  id_token : Option (List (String × TVal))
  state : Option String

/-- Modelled from the spec: `authorize(request, user_id,
extra_userinfo)` (spec section 4.1).  Resolves the subject identifier
via the factory using the client's subject_type (the sector identifier
is derived from the redirect URI; URL-host extraction is external and
modelled as the redirect URI itself), reconciles explicit `sub`
constraints, mints the artifact set dictated by `response_type`
(code / access token), assembles the ID Token claims with
`c_hash`/`at_hash` injected when a code / access token is co-issued,
and echoes `state`.  A validated request's client is always known; an
unknown client is rejected. -/
def authorize (p : Provider) (s : AuthorizationState) (req : AuthnRequest)
    (user_id : String) (extra : Option ExtraClaims) (now : Int) :
    Except OpError (AuthzResponse × AuthorizationState) :=
  match lookupA req.client_id p.clients with
  | none => Except.error (OpError.authorizationError "unknown client_id")
  | some client =>
    let r1 := get_subject_identifier s client.subject_type user_id req.redirect_uri
    match checkSubConstraints req r1.1 with
    | Except.error e => Except.error e
    | Except.ok _ =>
      let rc : Option String × AuthorizationState :=
        if req.response_type.contains "code" then
          let m := create_authorization_code r1.2 req r1.1 now
          (some m.1, m.2)
        else (none, r1.2)
      let ra : Option String × AuthorizationState :=
        if req.response_type.contains "token" then
          let m := create_access_token rc.2 req r1.1 req.scope now
          (some m.1, m.2)
        else (none, rc.2)
      let idt : Option (List (String × TVal)) :=
        if req.response_type.contains "id_token" then
          some (mkIdTokenClaims p req r1.1 now rc.1 ra.1
                  (resolveClaimValues p user_id (idTokenClaimNames req))
                  (resolveExtra extra user_id req.client_id))
        else none
      Except.ok
        ({ code := rc.1,
           access_token := ra.1,
           token_type := if ra.1.isSome then some "Bearer" else none,
           expires_in := if ra.1.isSome then some s.access_token_lifetime else none,
           id_token := idt,
           state := req.state }, ra.2)

/-- Modelled from the spec: the form-encoded token-endpoint request
body (spec section 6): `grant_type` plus grant-specific parameters. -/
structure TokenRequest where
  grant_type : Option String := none
  code : Option String := none
  redirect_uri : Option String := none
  client_id : Option String := none
  client_secret : Option String := none
  refresh_token : Option String := none
  scope : Option (List String) := none
deriving DecidableEq, Repr

/-- Modelled from the spec: the Client Authenticator (spec section 4.3):
verifies the presented credentials per the client's registered
`token_endpoint_auth_method` (secret in the request body, or none for
public clients; the standard auth header is a transport detail carried
equivalently by the body fields here), failing with
`InvalidClientAuthentication` on missing, mismatched, or
method-inappropriate credentials. -/
def authenticate_client (p : Provider) (r : TokenRequest) : Except OpError (String × Client) :=
  match r.client_id with
  | none => Except.error (OpError.invalidClientAuthentication "missing client_id")
  | some cid =>
    match lookupA cid p.clients with
    | none => Except.error (OpError.invalidClientAuthentication "unknown client")
    | some client =>
      if client.token_endpoint_auth_method = "none" then Except.ok (cid, client)
      else if client.token_endpoint_auth_method = "client_secret_post" then
        match client.client_secret, r.client_secret with
        | some registered, some presented =>
          if presented = registered then Except.ok (cid, client)
          else Except.error (OpError.invalidClientAuthentication "invalid client secret")
        | _, _ => Except.error (OpError.invalidClientAuthentication "missing client secret")
      else Except.error (OpError.invalidClientAuthentication "unsupported auth method")

/-- The atomic invalidation half of code consumption: the code's entry
is overwritten with the single-use flag set (spec section 4.2). -/
def markCodeUsed (s : AuthorizationState) (c : String) (info : AuthzCodeInfo) :
    AuthorizationState :=
  { s with authorization_codes := (c, { info with used := true }) :: s.authorization_codes }

/-- Modelled from the spec: the token response (spec section 6):
`access_token, token_type=Bearer, expires_in, id_token?,
refresh_token?`. -/
structure TokenResponse where
  access_token : String
  token_type : String
  expires_in : Int
  id_token : Option (List (String × TVal))
  refresh_token : Option String

/-- Modelled from the spec: the `authorization_code` grant (spec
section 4.1, handle_token_request): look up and consume the code —
failing with `InvalidTokenRequest` if absent, already used or expired,
if the submitted `redirect_uri` does not match the one bound to the
code, or if the authenticated client_id does not match — then
atomically invalidate it, mint an access token, and mint an ID Token
with `at_hash` when the original request's scope calls for it. -/
def do_code_exchange (p : Provider) (s : AuthorizationState) (r : TokenRequest)
    (cid : String) (extra : Option ExtraClaims) (now : Int) :
    Except OpError (TokenResponse × AuthorizationState) :=
  match r.code with
  | none => Except.error (OpError.invalidTokenRequest "missing code")
  | some c =>
    match lookupA c s.authorization_codes with
    | none => Except.error (OpError.invalidTokenRequest "unknown code")
    | some info =>
      if info.used then Except.error (OpError.invalidTokenRequest "code already used")
      else if info.exp < now then Except.error (OpError.invalidTokenRequest "code expired")
      else if r.redirect_uri ≠ some info.request.redirect_uri then
        Except.error (OpError.invalidTokenRequest "redirect_uri mismatch")
      else if cid ≠ info.request.client_id then
        Except.error (OpError.invalidTokenRequest "client_id mismatch")
      else
        let s1 := markCodeUsed s c info
        let m := create_access_token s1 info.request info.sub info.request.scope now
        let idt : Option (List (String × TVal)) :=
          if info.request.scope.contains "openid" then
            some (mkIdTokenClaims p info.request info.sub now none (some m.1)
                    (resolveClaimValues p
                      ((get_user_id_for_subject_identifier s info.sub).getD "")
                      (info.request.claims_id_token.map (fun e => e.1)))
                    (resolveExtra extra
                      ((get_user_id_for_subject_identifier s info.sub).getD "")
                      info.request.client_id))
          else none
        Except.ok
          ({ access_token := m.1, token_type := "Bearer",
             expires_in := s.access_token_lifetime, id_token := idt,
             refresh_token := none }, m.2)

/-- Modelled from the spec: the `refresh_token` grant (spec
section 4.1): validate the refresh token (failing with
`InvalidTokenRequest` if absent, unknown or expired), mint a new access
token scoped to the requested scope — a missing `scope` parameter
defaults to the scope of the original authorization — and rotate the
refresh token (issue a replacement, invalidate the old one) only when
its remaining lifetime is below the configured rotation threshold;
otherwise the store keeps the original token and the response carries
no `refresh_token` field. -/
def do_refresh (_p : Provider) (s : AuthorizationState) (r : TokenRequest)
    (now : Int) : Except OpError (TokenResponse × AuthorizationState) :=
  match r.refresh_token with
  | none => Except.error (OpError.invalidTokenRequest "missing refresh_token")
  | some rtv =>
    match lookupA rtv s.refresh_tokens with
    | none => Except.error (OpError.invalidTokenRequest "unknown refresh_token")
    | some info =>
      if info.exp < now then Except.error (OpError.invalidTokenRequest "refresh_token expired")
      else
        let scope := r.scope.getD info.scope
        let m := create_access_token s info.request info.sub scope now
        if info.exp - now < s.refresh_token_threshold then
          let s1 := { m.2 with refresh_tokens := removeA rtv m.2.refresh_tokens }
          let m2 := mintValue s1
          let s2 := { m2.2 with refresh_tokens :=
            (m2.1, { access_token_value := m.1, request := info.request, sub := info.sub,
                     scope := info.scope, iat := now,
                     exp := now + s.refresh_token_lifetime }) :: m2.2.refresh_tokens }
          Except.ok
            ({ access_token := m.1, token_type := "Bearer",
               expires_in := s.access_token_lifetime, id_token := none,
               refresh_token := some m2.1 }, s2)
        else
          Except.ok
            ({ access_token := m.1, token_type := "Bearer",
               expires_in := s.access_token_lifetime, id_token := none,
               refresh_token := none }, m.2)

/-- Modelled from the spec: `handle_token_request(raw_body,
extra_id_token_claims)` (spec section 4.1): authenticate the client —
failures propagate as `InvalidClientAuthentication`, never downgraded —
then dispatch on `grant_type`; any other or missing grant_type fails
with `InvalidTokenRequest`. -/
def handle_token_request (p : Provider) (s : AuthorizationState) (r : TokenRequest)
    (extra : Option ExtraClaims) (now : Int) :
    Except OpError (TokenResponse × AuthorizationState) :=
  match authenticate_client p r with
  | Except.error e => Except.error e
  | Except.ok a =>
    match r.grant_type with
    | some "authorization_code" => do_code_exchange p s r a.1 extra now
    | some "refresh_token" => do_refresh p s r now
    | _ => Except.error (OpError.invalidTokenRequest "unsupported grant_type")

/-- The state left behind by one token-endpoint request: the updated
store on success, the unchanged store on a rejected request. -/
def tokenStep (p : Provider) (s : AuthorizationState)
    (r : TokenRequest × Option ExtraClaims × Int) : AuthorizationState :=
  match handle_token_request p s r.1 r.2.1 r.2.2 with
  | Except.ok res => res.2
  | Except.error _ => s

/-- The state after a whole sequence of token-endpoint requests. -/
def runTokens (p : Provider) (s : AuthorizationState)
    (rs : List (TokenRequest × Option ExtraClaims × Int)) : AuthorizationState :=
  rs.foldl (tokenStep p) s

/-- Modelled from the spec: the Authorization State's access-token
introspection (spec section 4.2): a non-destructive read that checks
expiry against the current time and raises `InvalidAccessToken` for an
expired or unknown entry. -/
def introspect_access_token (s : AuthorizationState) (atv : String) (now : Int) :
    Except OpError AccessTokenInfo :=
  match lookupA atv s.access_tokens with
  | none => Except.error (OpError.invalidAccessToken "unknown access token")
  | some info =>
    if info.exp < now then Except.error (OpError.invalidAccessToken "access token expired")
    else Except.ok info

/-- Modelled from the spec: `handle_userinfo_request(raw_request)` (spec
sections 4.1 and 4.4, together with the in-repository test
`TestProviderHandleUserinfoRequest.test_handle_userinfo`): extract a
bearer access token (failing with `BearerTokenError` when absent),
resolve it via Authorization State (the internal `InvalidAccessToken`
of an expired or unknown token is translated to
`InvalidUserinfoRequest` at this boundary, spec section 7), and return
the scope-derived userinfo claims unioned with the explicitly requested
userinfo claims for the bound subject, resolved against the user claims
store, always including `sub`. -/
def handle_userinfo_request (p : Provider) (s : AuthorizationState)
    (access_token : Option String) (now : Int) :
    Except OpError (List (String × TVal)) :=
  match access_token with
  | none => Except.error (OpError.bearerTokenError "missing access token")
  | some atv =>
    match introspect_access_token s atv now with
    | Except.error _ => Except.error (OpError.invalidUserinfoRequest "invalid access token")
    | Except.ok info =>
      match get_user_id_for_subject_identifier s info.sub with
      | none => Except.error (OpError.invalidUserinfoRequest "unknown subject")
      | some uid =>
        Except.ok (("sub", TVal.s info.sub) ::
          resolveClaimValues p uid
            (userinfoClaimNames info.scope info.request.claims_userinfo))

/-- The claim names predicted by the specification sentence that
describes `handle_userinfo_request` as returning the INTERSECTION of
the scope-derived and the explicitly requested userinfo claims.  This
definition follows that sentence's words, for comparison with the
union-based behaviour the in-repository test demands. -/
def userinfoClaimNamesIntersection (scope : List String)
    (claims_userinfo : List (String × Option String)) : List String :=
  (scope.flatMap scope2claims).filter
    (fun c => (claims_userinfo.map (fun e => e.1)).contains c)

/-- JSON values as returned by Python's `json.loads`. -/
inductive Json where
  | obj (entries : List (String × Json))
  | arr (elems : List Json)
  | jstr (v : String)
  | jnum (v : Int)
  | jbool (v : Bool)
  | jnull

/-- Whether the first list is a prefix of the second. -/
def listPre : List Char → List Char → Bool
  | [], _ => true
  | _ :: _, [] => false
  | a :: as, b :: bs => a = b && listPre as bs

/-- Whether the first list occurs contiguously inside the second. -/
def listSub : List Char → List Char → Bool
  | n, [] => listPre n []
  | n, b :: bs => listPre n (b :: bs) || listSub n bs

/-- Python string containment (`needle in hay` for `str`). -/
def pyInStr (needle hay : String) : Bool :=
  listSub needle.data hay.data

/-- Whether a JSON value is the given Python string, used by list
membership (`'key' in some_list` compares elements with `==`). -/
def Json.isStr (k : String) : Json → Bool
  | .jstr v => v = k
  | _ => false

/-- Python's `key in value` on a decoded JSON value: key membership for
an object (dict), element membership for an array (list), substring
test for a string; a number, boolean or `None` is not iterable, so the
operator raises `TypeError`, modelled as `none`. -/
def pyIn (k : String) : Json → Option Bool
  | .obj entries => some (entries.any (fun e => e.1 = k))
  | .arr elems => some (elems.any (Json.isStr k))
  | .jstr v => some (pyInStr k v)
  | _ => none

/-- The exceptions `parse_qrdata` can raise: its own
`InvalidQrDataError`, and an escaping `TypeError` from the `in`
operator. -/
inductive PyError where
  | invalidQrData (msg : String)
  | typeError
deriving DecidableEq, Repr

/-- `parse_qrdata(qrcode)` of
`src/se_leg_op/service/vetting_process_tools.py`, translated
line-for-line.  The external `json.loads` is the parameter `loads`,
with `none` standing for a raised `ValueError`.  An empty string is
falsy; `qrcode[0]` is the first character; the generator
`all(key in qrdata for key in ('nonce', 'token'))` evaluates the `in`
operator on the decoded value, whose `TypeError` on non-container
values is not caught by the `except ValueError` above it. -/
def parse_qrdata (loads : String → Option Json) (qrcode : String) : Except PyError Json :=
  if qrcode = "" then Except.error (PyError.invalidQrData "Empty QR code version")
  else if qrcode.take 1 ≠ "1" then Except.error (PyError.invalidQrData "Invalid QR code version")
  else
    match loads (qrcode.drop 1) with
    | none => Except.error (PyError.invalidQrData "Invalid QR code")
    | some qrdata =>
      match pyIn "nonce" qrdata, pyIn "token" qrdata with
      | some b1, some b2 =>
        if b1 && b2 then Except.ok qrdata
        else Except.error (PyError.invalidQrData "Invalid QR code")
      | _, _ => Except.error PyError.typeError

/-- `create_authentication_response(authn_req, user_id, extra_userinfo)`
of `src/se_leg_op/service/vetting_process_tools.py`, translated
directly.  The ambient `current_app.provider.authorize` is the
parameter `provider_authorize`; `AuthorizationRequest().from_dict` is
the parameter `from_dict`; the external randomness of `uuid.uuid4()` is
the parameter `uuid4`, the freshly generated version-4 UUID this call
would draw. -/
def create_authentication_response {Req Resp E : Type}
    (provider_authorize : Req → String → Option E → Resp)
    (from_dict : List (String × String) → Req) (uuid4 : String)
    (authn_req : List (String × String)) (user_id : Option String)
    (extra_userinfo : Option E) : Resp :=
  let uid := match user_id with
    | none => uuid4
    | some u => u
  provider_authorize (from_dict authn_req) uid extra_userinfo

/-! ## Shared concrete fixture, mirroring the test suite's provider setup -/

/-- The registered test client of the test suite's `inject_provider`
fixture. -/
def clientW : Client :=
  { client_secret := some "secret",
    redirect_uris := ["https://client.example.com"],
    response_types := [["code"]],
    subject_type := "pairwise",
    token_endpoint_auth_method := "client_secret_post" }

/-- The test suite's provider: issuer, one client, one user's claims. -/
def pW : Provider :=
  { issuer := "https://provider.example.com",
    clients := [("client1", clientW)],
    userinfo := [("user1",
      [("name", TVal.s "The T. Tester"), ("family_name", TVal.s "Tester"),
       ("given_name", TVal.s "The"), ("middle_name", TVal.s "Theodore"),
       ("nickname", TVal.s "testster"), ("email", TVal.s "testster@example.com")])],
    id_token_lifetime := 3600,
    left_hash := fun v => "lh:" ++ v }

/-- A fresh authorization state with a concrete stand-in hash. -/
def sW : AuthorizationState := { hash_fn := fun v => "H:" ++ v }

/-- The test suite's base authentication request. -/
def reqW : AuthnRequest :=
  { scope := ["openid"], response_type := ["code"], client_id := "client1",
    redirect_uri := "https://client.example.com",
    state := some "state", nonce := some "nonce" }

/-! ## C2: response-encoding policy -/

/-- C2: for every authentication request, `should_fragment_encode`
returns the value dictated by an explicit `response_mode` (`fragment`
gives true, `query` gives false) regardless of `response_type`; with no
`response_mode` it returns true exactly when the response_type set
contains `id_token` or `token` — true for `id_token`,
`id_token token`, `code id_token`, `code token`,
`code id_token token`, false for pure `code`. -/
theorem C2_should_fragment_encode (req : AuthnRequest) :
    (req.response_mode = some "fragment" → should_fragment_encode req = true) ∧
    (req.response_mode = some "query" → should_fragment_encode req = false) ∧
    (req.response_mode = none →
      should_fragment_encode req =
        (req.response_type.contains "id_token" || req.response_type.contains "token")) ∧
    should_fragment_encode { response_type := ["code"] } = false ∧
    should_fragment_encode { response_type := ["id_token"] } = true ∧
    should_fragment_encode { response_type := ["id_token", "token"] } = true ∧
    should_fragment_encode { response_type := ["code", "id_token"] } = true ∧
    should_fragment_encode { response_type := ["code", "token"] } = true ∧
    should_fragment_encode { response_type := ["code", "id_token", "token"] } = true := by
  refine ⟨?_, ?_, ?_, by decide, by decide, by decide, by decide, by decide, by decide⟩
  · intro h; simp [should_fragment_encode, h]
  · intro h; simp [should_fragment_encode, h]
  · intro h; simp [should_fragment_encode, h]

/-- Witness for C2 at a concrete request: an explicit fragment
response_mode wins over the pure-code response type. -/
theorem C2_should_fragment_encode_witness :
    should_fragment_encode { response_type := ["code"], response_mode := some "fragment" } = true :=
  (C2_should_fragment_encode { response_type := ["code"], response_mode := some "fragment" }).1 rfl

/-! ## C6: pairwise subject identifiers -/

/-- C6: `get_subject_identifier('pairwise', user, sector)` returns the
same value on every call — from any state sharing the factory's salt
and hash, in particular from the state the first call left behind —
that value differs from the raw user identifier (given that the hash
output differs from it, the cryptographic non-invertibility assumption
the spec makes of the external hash), and
`get_user_id_for_subject_identifier` applied to it returns the original
user identifier. -/
theorem C6_pairwise_subject_identifier (s s2 : AuthorizationState) (user sector : String)
    (hsalt : s2.salt = s.salt) (hhash : s2.hash_fn = s.hash_fn)
    (hne : s.hash_fn (sector ++ user ++ s.salt) ≠ user) :
    (get_subject_identifier s "pairwise" user sector).1
      = (get_subject_identifier s2 "pairwise" user sector).1 ∧
    (get_subject_identifier s "pairwise" user sector).1 ≠ user ∧
    get_user_id_for_subject_identifier (get_subject_identifier s "pairwise" user sector).2
      (get_subject_identifier s "pairwise" user sector).1 = some user := by
  refine ⟨by simp [get_subject_identifier, hsalt, hhash], by simpa [get_subject_identifier] using hne, ?_⟩
  simp [get_subject_identifier, get_user_id_for_subject_identifier, lookupA]

/-- Witness for C6 at the test fixture's user and sector. -/
theorem C6_pairwise_subject_identifier_witness :
    (get_subject_identifier sW "pairwise" "user1" "client1.example.com").1
      = (get_subject_identifier (get_subject_identifier sW "pairwise" "user1" "client1.example.com").2
          "pairwise" "user1" "client1.example.com").1 ∧
    (get_subject_identifier sW "pairwise" "user1" "client1.example.com").1 ≠ "user1" ∧
    get_user_id_for_subject_identifier
      (get_subject_identifier sW "pairwise" "user1" "client1.example.com").2
      (get_subject_identifier sW "pairwise" "user1" "client1.example.com").1 = some "user1" :=
  C6_pairwise_subject_identifier sW
    (get_subject_identifier sW "pairwise" "user1" "client1.example.com").2
    "user1" "client1.example.com" rfl rfl (by decide)

/-! ## C10: vetting bootstrap of user_id -/

/-- C10: `create_authentication_response` called with no user_id passes
the freshly generated random version-4 UUID (external randomness,
carried as the `uuid4` parameter) to `Provider.authorize`, while an
explicitly supplied user_id is passed through unchanged; in both cases
the `extra_userinfo` argument is forwarded as given. -/
theorem C10_create_authentication_response {Req Resp E : Type}
    (provider_authorize : Req → String → Option E → Resp)
    (from_dict : List (String × String) → Req) (uuid4 : String)
    (authn_req : List (String × String)) (user_id : Option String)
    (extra_userinfo : Option E) :
    (user_id = none →
      create_authentication_response provider_authorize from_dict uuid4 authn_req
          user_id extra_userinfo
        = provider_authorize (from_dict authn_req) uuid4 extra_userinfo) ∧
    (∀ u, user_id = some u →
      create_authentication_response provider_authorize from_dict uuid4 authn_req
          user_id extra_userinfo
        = provider_authorize (from_dict authn_req) u extra_userinfo) := by
  constructor
  · intro h; simp [create_authentication_response, h]
  · intro u h; simp [create_authentication_response, h]

/-- Witness for C10 at a concrete instantiation: the generated UUID is
the user identifier handed to `authorize`, and the extra userinfo rides
along. -/
theorem C10_create_authentication_response_witness :
    create_authentication_response (fun (r : Nat) (uid : String) (e : Option Nat) => (r, uid, e))
        (fun _ => 0) "uuid-4-fresh" [("scope", "openid")] none (some 7)
      = (0, "uuid-4-fresh", some 7) :=
  (C10_create_authentication_response
      (fun (r : Nat) (uid : String) (e : Option Nat) => (r, uid, e))
      (fun _ => 0) "uuid-4-fresh" [("scope", "openid")] none (some 7)).1 rfl

/-! ## C9: parse_qrdata -/

/-- Python's `json.loads` at the probe input of the C9 counterexample:
`json.loads("5")` returns the number 5 (a bare JSON number is valid
JSON). -/
def jsonLoadsNum : String → Option Json :=
  fun v => if v = "5" then some (Json.jnum 5) else none

/-- Counterexample to C9 as stated: for the input string `"15"` the
remainder `"5"` is valid JSON (the number 5) and certainly lacks the
keys `nonce` and `token`, so the claim predicts `InvalidQrDataError`;
the code instead evaluates `'nonce' in 5`, whose `TypeError` is not
caught by the `except ValueError` handler and escapes raw. -/
theorem C9_parse_qrdata_counterexample :
    parse_qrdata jsonLoadsNum "15" = Except.error PyError.typeError := by
  rfl

/-- C9 (amended): `parse_qrdata` raises `InvalidQrDataError` when the
string is empty, when its first character is not `1`, when the
remainder is not valid JSON, or when the remainder decodes to a JSON
container (object, array or string) in which the Python `in` operator
finds `nonce` or `token` missing; when the remainder decodes to a JSON
number, boolean or null, the `in` operator raises `TypeError` instead
(uncaught); otherwise it returns the parsed JSON value. -/
theorem C9_parse_qrdata (loads : String → Option Json) (s : String) :
    (s = "" → parse_qrdata loads s
        = Except.error (PyError.invalidQrData "Empty QR code version")) ∧
    (s ≠ "" → s.take 1 ≠ "1" → parse_qrdata loads s
        = Except.error (PyError.invalidQrData "Invalid QR code version")) ∧
    (s ≠ "" → s.take 1 = "1" → loads (s.drop 1) = none → parse_qrdata loads s
        = Except.error (PyError.invalidQrData "Invalid QR code")) ∧
    (∀ j, s ≠ "" → s.take 1 = "1" → loads (s.drop 1) = some j →
      pyIn "nonce" j = none →
      parse_qrdata loads s = Except.error PyError.typeError) ∧
    (∀ j b1 b2, s ≠ "" → s.take 1 = "1" → loads (s.drop 1) = some j →
      pyIn "nonce" j = some b1 → pyIn "token" j = some b2 →
      parse_qrdata loads s =
        if b1 && b2 then Except.ok j
        else Except.error (PyError.invalidQrData "Invalid QR code")) := by
  refine ⟨?_, ?_, ?_, ?_, ?_⟩
  · intro h; simp [parse_qrdata, h]
  · intro h1 h2; simp [parse_qrdata, h1, h2]
  · intro h1 h2 h3; simp [parse_qrdata, h1, h2, h3]
  · intro j h1 h2 h3 h4
    cases h5 : pyIn "token" j <;> simp [parse_qrdata, h1, h2, h3, h4, h5]
  · intro j b1 b2 h1 h2 h3 h4 h5
    simp [parse_qrdata, h1, h2, h3, h4, h5]

/-- Python's `json.loads` at the probe input of the C9 witness: the
object text decodes to an object carrying `nonce` and `token`. -/
def jsonLoadsObjEx : String → Option Json :=
  fun v =>
    if v = "\x7b\"nonce\": \"a\", \"token\": \"b\"\x7d"
    then some (Json.obj [("nonce", Json.jstr "a"), ("token", Json.jstr "b")])
    else none

/-- Witness for C9 at a well-formed QR payload: version prefix `1`
followed by a JSON object with both required keys parses
successfully. -/
theorem C9_parse_qrdata_witness :
    parse_qrdata jsonLoadsObjEx ("1" ++ "\x7b\"nonce\": \"a\", \"token\": \"b\"\x7d")
      = Except.ok (Json.obj [("nonce", Json.jstr "a"), ("token", Json.jstr "b")]) := by
  have h := (C9_parse_qrdata jsonLoadsObjEx
      ("1" ++ "\x7b\"nonce\": \"a\", \"token\": \"b\"\x7d")).2.2.2.2
      (Json.obj [("nonce", Json.jstr "a"), ("token", Json.jstr "b")]) true true
      (by decide) (by decide) (by rfl) (by rfl) (by rfl)
  simpa using h

/-! ## C7: conflicting explicit sub constraints -/

/-- C7: an authorization request whose claims parameter requests
explicit `sub` values at the `userinfo` and `id_token` locations that
disagree fails with `AuthorizationError` whose message mentions the
conflict (in Python terms, `'different' in str(exc)` — here, the word
`different` occurs in the message), and no response is produced. -/
theorem C7_conflicting_sub (p : Provider) (s : AuthorizationState) (req : AuthnRequest)
    (user_id : String) (extra : Option ExtraClaims) (now : Int) (client : Client)
    (v1 v2 : String)
    (hclient : lookupA req.client_id p.clients = some client)
    (h1 : lookupA "sub" req.claims_userinfo = some (some v1))
    (h2 : lookupA "sub" req.claims_id_token = some (some v2))
    (hne : v1 ≠ v2) :
    authorize p s req user_id extra now
      = Except.error (OpError.authorizationError "different sub values requested") ∧
    pyInStr "different" "different sub values requested" = true := by
  constructor
  · simp [authorize, hclient, checkSubConstraints, requestedSubs, h1, h2, hne]
  · decide

/-- The conflicting-sub request of the test
`test_with_multiple_requested_sub`. -/
def req7W : AuthnRequest :=
  { reqW with claims_userinfo := [("sub", some "nomatch1")],
              claims_id_token := [("sub", some "nomatch2")] }

/-- Witness for C7 at the test's concrete conflicting request. -/
theorem C7_conflicting_sub_witness :
    authorize pW sW req7W "user1" none 0
      = Except.error (OpError.authorizationError "different sub values requested") ∧
    pyInStr "different" "different sub values requested" = true :=
  C7_conflicting_sub pW sW req7W "user1" none 0 clientW "nomatch1" "nomatch2"
    rfl rfl rfl (by decide)

/-! ## ID-Token claim lookups -/

/-- The assembled ID Token always carries the configured issuer. -/
theorem lookupA_mkIdToken_iss (p : Provider) (req : AuthnRequest) (sub : String)
    (now : Int) (c a : Option String) (u e : List (String × TVal)) :
    lookupA "iss" (mkIdTokenClaims p req sub now c a u e) = some (TVal.s p.issuer) := by
  simp [mkIdTokenClaims, lookupA]

/-- The assembled ID Token's audience is the requesting client_id. -/
theorem lookupA_mkIdToken_aud (p : Provider) (req : AuthnRequest) (sub : String)
    (now : Int) (c a : Option String) (u e : List (String × TVal)) :
    lookupA "aud" (mkIdTokenClaims p req sub now c a u e) = some (TVal.ls [req.client_id]) := by
  simp [mkIdTokenClaims, lookupA]

/-- The assembled ID Token's issued-at is the current time. -/
theorem lookupA_mkIdToken_iat (p : Provider) (req : AuthnRequest) (sub : String)
    (now : Int) (c a : Option String) (u e : List (String × TVal)) :
    lookupA "iat" (mkIdTokenClaims p req sub now c a u e) = some (TVal.n now) := by
  simp [mkIdTokenClaims, lookupA]

/-- The assembled ID Token expires one configured lifetime after its
issued-at. -/
theorem lookupA_mkIdToken_exp (p : Provider) (req : AuthnRequest) (sub : String)
    (now : Int) (c a : Option String) (u e : List (String × TVal)) :
    lookupA "exp" (mkIdTokenClaims p req sub now c a u e)
      = some (TVal.n (now + p.id_token_lifetime)) := by
  simp [mkIdTokenClaims, lookupA]

/-- The assembled ID Token echoes the request's nonce. -/
theorem lookupA_mkIdToken_nonce (p : Provider) (req : AuthnRequest) (sub : String)
    (now : Int) (c a : Option String) (u e : List (String × TVal)) (nn : String)
    (hn : req.nonce = some nn) :
    lookupA "nonce" (mkIdTokenClaims p req sub now c a u e) = some (TVal.s nn) := by
  simp [mkIdTokenClaims, lookupA, hn]

/-- When a code is co-issued, the assembled ID Token carries its
left-half hash as `c_hash`. -/
theorem lookupA_mkIdToken_c_hash (p : Provider) (req : AuthnRequest) (sub : String)
    (now : Int) (c a : Option String) (u e : List (String × TVal)) (cv : String)
    (hc : c = some cv) :
    lookupA "c_hash" (mkIdTokenClaims p req sub now c a u e)
      = some (TVal.s (p.left_hash cv)) := by
  cases hn : req.nonce <;> simp [mkIdTokenClaims, lookupA, hc, hn]

/-- When an access token is co-issued, the assembled ID Token carries
its left-half hash as `at_hash`. -/
theorem lookupA_mkIdToken_at_hash (p : Provider) (req : AuthnRequest) (sub : String)
    (now : Int) (c a : Option String) (u e : List (String × TVal)) (av : String)
    (ha : a = some av) :
    lookupA "at_hash" (mkIdTokenClaims p req sub now c a u e)
      = some (TVal.s (p.left_hash av)) := by
  cases hn : req.nonce <;> cases hc : c <;> simp [mkIdTokenClaims, lookupA, ha, hn]

/-! ## C3: hybrid flow -/

/-- C3: every successful hybrid authorization (response_type
`code id_token token`) returns an ID Token whose `c_hash` is the
left-half hash of the co-issued code, whose `at_hash` is the left-half
hash of the co-issued access token — the hash being the one matching
the ID Token's signing algorithm, applied to the UTF-8 token value, the
external primitive `left_hash` — and echoes the request's `state`
unchanged. -/
theorem C3_hybrid_flow (p : Provider) (s : AuthorizationState) (req : AuthnRequest)
    (user_id : String) (extra : Option ExtraClaims) (now : Int)
    (resp : AuthzResponse) (s2 : AuthorizationState)
    (hrt : req.response_type = ["code", "id_token", "token"])
    (hok : authorize p s req user_id extra now = Except.ok (resp, s2)) :
    ∃ cv av cl, resp.code = some cv ∧ resp.access_token = some av ∧
      resp.id_token = some cl ∧
      lookupA "c_hash" cl = some (TVal.s (p.left_hash cv)) ∧
      lookupA "at_hash" cl = some (TVal.s (p.left_hash av)) ∧
      resp.state = req.state := by
  cases hcl : lookupA req.client_id p.clients with
  | none => simp [authorize, hcl] at hok
  | some client =>
    cases hsc : checkSubConstraints req
        (get_subject_identifier s client.subject_type user_id req.redirect_uri).1 with
    | error e => simp [authorize, hcl, hsc] at hok
    | ok uu =>
      simp only [authorize, hcl, hsc, hrt] at hok
      simp at hok
      obtain ⟨h1, _⟩ := hok
      subst h1
      exact ⟨_, _, _, rfl, rfl, rfl,
        lookupA_mkIdToken_c_hash p req _ now _ _ _ _ _ rfl,
        lookupA_mkIdToken_at_hash p req _ now _ _ _ _ _ rfl, rfl⟩

/-- The hybrid request of the test `test_hybrid_flow`. -/
def reqHybW : AuthnRequest := { reqW with response_type := ["code", "id_token", "token"] }

/-- The authorize response of the concrete hybrid-flow run. -/
def respHybW : AuthzResponse :=
  match authorize pW sW reqHybW "user1" none 0 with
  | Except.ok r => r.1
  | Except.error _ =>
    { code := none, access_token := none, token_type := none,
      expires_in := none, id_token := none, state := none }

/-- The state the concrete hybrid-flow run leaves behind. -/
def sHybW : AuthorizationState :=
  match authorize pW sW reqHybW "user1" none 0 with
  | Except.ok r => r.2
  | Except.error _ => sW

/-- Witness for C3 at the test's concrete hybrid request. -/
theorem C3_hybrid_flow_witness :
    ∃ cv av cl, respHybW.code = some cv ∧ respHybW.access_token = some av ∧
      respHybW.id_token = some cl ∧
      lookupA "c_hash" cl = some (TVal.s (pW.left_hash cv)) ∧
      lookupA "at_hash" cl = some (TVal.s (pW.left_hash av)) ∧
      respHybW.state = reqHybW.state :=
  C3_hybrid_flow pW sW reqHybW "user1" none 0 respHybW sHybW rfl rfl

/-- A refresh-grant response never carries an ID Token in this model. -/
theorem do_refresh_no_id_token (p : Provider) (s : AuthorizationState) (r : TokenRequest)
    (now : Int) (resp : TokenResponse) (s2 : AuthorizationState)
    (h : do_refresh p s r now = Except.ok (resp, s2)) : resp.id_token = none := by
  cases hrt : r.refresh_token with
  | none => simp [do_refresh, hrt] at h
  | some rtv =>
    cases hl : lookupA rtv s.refresh_tokens with
    | none => simp [do_refresh, hrt, hl] at h
    | some info =>
      simp only [do_refresh, hrt, hl] at h
      split at h
      · simp at h
      · split at h
        · simp at h
          obtain ⟨h1, _⟩ := h
          subst h1
          rfl
        · simp at h
          obtain ⟨h1, _⟩ := h
          subst h1
          rfl

/-! ## C4: ID-Token base claims -/

/-- C4: every ID Token produced by authorize or by token exchange
carries `iss` equal to the configured issuer, an `aud` containing the
requesting client_id, the originating request's `nonce` echoed back,
and `exp` equal to `iat` plus the configured ID-Token lifetime (with
`iat` the issuing time). -/
theorem C4_id_token_base_claims (p : Provider) (s : AuthorizationState) (now : Int) :
    (∀ req user_id extra resp s2 cl,
      authorize p s req user_id extra now = Except.ok (resp, s2) →
      resp.id_token = some cl →
      lookupA "iss" cl = some (TVal.s p.issuer) ∧
      (∃ l, lookupA "aud" cl = some (TVal.ls l) ∧ req.client_id ∈ l) ∧
      (∀ nn, req.nonce = some nn → lookupA "nonce" cl = some (TVal.s nn)) ∧
      lookupA "iat" cl = some (TVal.n now) ∧
      lookupA "exp" cl = some (TVal.n (now + p.id_token_lifetime))) ∧
    (∀ r extra c info resp s2 cl,
      r.code = some c →
      lookupA c s.authorization_codes = some info →
      handle_token_request p s r extra now = Except.ok (resp, s2) →
      resp.id_token = some cl →
      lookupA "iss" cl = some (TVal.s p.issuer) ∧
      (∃ l, lookupA "aud" cl = some (TVal.ls l) ∧ info.request.client_id ∈ l) ∧
      (∀ nn, info.request.nonce = some nn → lookupA "nonce" cl = some (TVal.s nn)) ∧
      lookupA "iat" cl = some (TVal.n now) ∧
      lookupA "exp" cl = some (TVal.n (now + p.id_token_lifetime))) := by
  constructor
  · intro req user_id extra resp s2 cl hok hi
    cases hcl : lookupA req.client_id p.clients with
    | none => simp [authorize, hcl] at hok
    | some client =>
      cases hsc : checkSubConstraints req
          (get_subject_identifier s client.subject_type user_id req.redirect_uri).1 with
      | error e => simp [authorize, hcl, hsc] at hok
      | ok uu =>
        simp only [authorize, hcl, hsc] at hok
        simp at hok
        obtain ⟨h1, _⟩ := hok
        subst h1
        dsimp only at hi
        split at hi
        · rw [Option.some.injEq] at hi
          subst hi
          exact ⟨lookupA_mkIdToken_iss p req _ now _ _ _ _,
            ⟨[req.client_id], lookupA_mkIdToken_aud p req _ now _ _ _ _, by simp⟩,
            fun nn hn => lookupA_mkIdToken_nonce p req _ now _ _ _ _ nn hn,
            lookupA_mkIdToken_iat p req _ now _ _ _ _,
            lookupA_mkIdToken_exp p req _ now _ _ _ _⟩
        · simp at hi
  · intro r extra c info resp s2 cl hc hlook hok hi
    cases ha : authenticate_client p r with
    | error e => simp [handle_token_request, ha] at hok
    | ok a =>
      simp only [handle_token_request, ha] at hok
      split at hok
      · simp only [do_code_exchange, hc, hlook] at hok
        split at hok
        · simp at hok
        · split at hok
          · simp at hok
          · split at hok
            · simp at hok
            · split at hok
              · simp at hok
              · simp at hok
                obtain ⟨h1, _⟩ := hok
                subst h1
                dsimp only at hi
                split at hi
                · rw [Option.some.injEq] at hi
                  subst hi
                  exact ⟨lookupA_mkIdToken_iss p info.request _ now _ _ _ _,
                    ⟨[info.request.client_id],
                      lookupA_mkIdToken_aud p info.request _ now _ _ _ _, by simp⟩,
                    fun nn hn => lookupA_mkIdToken_nonce p info.request _ now _ _ _ _ nn hn,
                    lookupA_mkIdToken_iat p info.request _ now _ _ _ _,
                    lookupA_mkIdToken_exp p info.request _ now _ _ _ _⟩
                · simp at hi
      · rw [do_refresh_no_id_token p s r now resp s2 hok] at hi
        simp at hi
      · simp at hok

/-- The implicit-flow request of
`test_authorize_with_extra_id_token_claims`. -/
def reqIdW : AuthnRequest := { reqW with response_type := ["id_token"] }

/-- The authorize response of the concrete implicit-flow run. -/
def respIdW : AuthzResponse :=
  match authorize pW sW reqIdW "user1" none 0 with
  | Except.ok r => r.1
  | Except.error _ =>
    { code := none, access_token := none, token_type := none,
      expires_in := none, id_token := none, state := none }

/-- The state the concrete implicit-flow run leaves behind. -/
def sIdW : AuthorizationState :=
  match authorize pW sW reqIdW "user1" none 0 with
  | Except.ok r => r.2
  | Except.error _ => sW

/-- Witness for C4 at the concrete implicit-flow run. -/
theorem C4_id_token_base_claims_witness :
    ∃ cl l, respIdW.id_token = some cl ∧
      lookupA "iss" cl = some (TVal.s "https://provider.example.com") ∧
      lookupA "aud" cl = some (TVal.ls l) ∧ "client1" ∈ l ∧
      lookupA "nonce" cl = some (TVal.s "nonce") ∧
      lookupA "iat" cl = some (TVal.n 0) ∧
      lookupA "exp" cl = some (TVal.n (0 + 3600)) := by
  obtain ⟨h1, ⟨l, h2, h3⟩, h4, h5, h6⟩ :=
    (C4_id_token_base_claims pW sW 0).1 reqIdW "user1" none respIdW sIdW _ rfl rfl
  exact ⟨_, l, rfl, h1, h2, h3, h4 "nonce" rfl, h5, h6⟩

/-! ## C1: single-use authorization codes -/

/-- A token-endpoint request never clears a code's single-use flag: any
code marked used before the request is still marked used after it. -/
theorem tokenStep_preserves_used (p : Provider) (s : AuthorizationState)
    (r : TokenRequest × Option ExtraClaims × Int) (c : String) (info : AuthzCodeInfo)
    (hl : lookupA c s.authorization_codes = some info) (hu : info.used = true) :
    ∃ j, lookupA c (tokenStep p s r).authorization_codes = some j ∧ j.used = true := by
  unfold tokenStep
  cases hh : handle_token_request p s r.1 r.2.1 r.2.2 with
  | error e => exact ⟨info, hl, hu⟩
  | ok res =>
    cases ha : authenticate_client p r.1 with
    | error e => simp [handle_token_request, ha] at hh
    | ok a =>
      simp only [handle_token_request, ha] at hh
      split at hh
      · -- authorization_code grant
        cases hc : r.1.code with
        | none => simp [do_code_exchange, hc] at hh
        | some c2 =>
          cases hl2 : lookupA c2 s.authorization_codes with
          | none => simp [do_code_exchange, hc, hl2] at hh
          | some info2 =>
            simp only [do_code_exchange, hc, hl2] at hh
            split at hh
            · simp at hh
            · split at hh
              · simp at hh
              · split at hh
                · simp at hh
                · split at hh
                  · simp at hh
                  · simp at hh
                    subst hh
                    by_cases hceq : c2 = c
                    · subst hceq
                      exact ⟨{ info2 with used := true }, by simp [create_access_token,
                        mintValue, markCodeUsed, lookupA], rfl⟩
                    · exact ⟨info, by simp [create_access_token, mintValue, markCodeUsed,
                        lookupA, hceq, hl], hu⟩
      · -- refresh_token grant: the code store is untouched
        cases hrt : r.1.refresh_token with
        | none => simp [do_refresh, hrt] at hh
        | some rtv =>
          cases hl2 : lookupA rtv s.refresh_tokens with
          | none => simp [do_refresh, hrt, hl2] at hh
          | some info2 =>
            simp only [do_refresh, hrt, hl2] at hh
            split at hh
            · simp at hh
            · split at hh
              · simp at hh
                subst hh
                exact ⟨info, by simpa [mintValue, create_access_token, removeA] using hl, hu⟩
              · simp at hh
                subst hh
                exact ⟨info, by simpa [mintValue, create_access_token] using hl, hu⟩
      · simp at hh

/-- Whether an Except value is a success. -/
def isOkE {ε α : Type} : Except ε α → Bool
  | Except.ok _ => true
  | Except.error _ => false

/-- No sequence of token-endpoint requests ever clears a code's
single-use flag. -/
theorem runTokens_preserves_used (p : Provider)
    (rs : List (TokenRequest × Option ExtraClaims × Int)) (s : AuthorizationState)
    (c : String) (info : AuthzCodeInfo)
    (hl : lookupA c s.authorization_codes = some info) (hu : info.used = true) :
    ∃ j, lookupA c (runTokens p s rs).authorization_codes = some j ∧ j.used = true := by
  induction rs generalizing s info with
  | nil => exact ⟨info, hl, hu⟩
  | cons r rest ih =>
    obtain ⟨j, hj, hju⟩ := tokenStep_preserves_used p s r c info hl hu
    exact ih (tokenStep p s r) j hj hju

/-- Exchanging a code whose single-use flag is set fails with
`InvalidTokenRequest`. -/
theorem used_code_exchange_fails (p : Provider) (s : AuthorizationState) (tr : TokenRequest)
    (extra : Option ExtraClaims) (now : Int) (a : String × Client) (c : String)
    (j : AuthzCodeInfo)
    (hauth : authenticate_client p tr = Except.ok a)
    (hg : tr.grant_type = some "authorization_code")
    (hc : tr.code = some c)
    (hl : lookupA c s.authorization_codes = some j) (hu : j.used = true) :
    handle_token_request p s tr extra now
      = Except.error (OpError.invalidTokenRequest "code already used") := by
  simp [handle_token_request, hauth, hg, do_code_exchange, hc, hl, hu]

/-- C1: an authorization code minted by Authorization State is accepted
by token exchange at most once: the first well-formed exchange (same
client, matching redirect URI, within the code's lifetime) succeeds,
and any subsequent exchange of the same code — immediately (empty
intervening sequence) or after any further sequence of token-endpoint
requests — fails with `InvalidTokenRequest`: consumption atomically
read-and-invalidates the code. -/
theorem C1_authorization_code_single_use
    (p : Provider) (s : AuthorizationState) (req : AuthnRequest) (sub : String)
    (now0 now1 : Int) (extra : Option ExtraClaims) (tr : TokenRequest)
    (c : String) (s1 : AuthorizationState) (a : String × Client)
    (hcs : create_authorization_code s req sub now0 = (c, s1))
    (hauth : authenticate_client p tr = Except.ok a)
    (hcid : a.1 = req.client_id)
    (hg : tr.grant_type = some "authorization_code")
    (hcode : tr.code = some c)
    (hred : tr.redirect_uri = some req.redirect_uri)
    (hexp : ¬ now0 + s.authorization_code_lifetime < now1) :
    isOkE (handle_token_request p s1 tr extra now1) = true ∧
    (∀ rest tr2 extra3 now2 a2,
      tr2.code = some c → tr2.grant_type = some "authorization_code" →
      authenticate_client p tr2 = Except.ok a2 →
      handle_token_request p (runTokens p (tokenStep p s1 (tr, extra, now1)) rest)
          tr2 extra3 now2
        = Except.error (OpError.invalidTokenRequest "code already used")) := by
  have hs1 : s1 = (create_authorization_code s req sub now0).2 := by rw [hcs]
  have hcodes : s1.authorization_codes
      = (c, { request := req, sub := sub, iat := now0,
              exp := now0 + s.authorization_code_lifetime, used := false })
          :: s.authorization_codes := by
    rw [hs1, show c = (create_authorization_code s req sub now0).1 from by rw [hcs]]
    rfl
  have hlook1 : lookupA c s1.authorization_codes
      = some { request := req, sub := sub, iat := now0,
               exp := now0 + s.authorization_code_lifetime, used := false } := by
    rw [hcodes]; simp [lookupA]
  constructor
  · simp [handle_token_request, hauth, hg, do_code_exchange, hcode, hlook1, hred, hcid,
      hexp, isOkE]
  · intro rest tr2 extra3 now2 a2 hc2 hg2 hauth2
    have hstep : lookupA c
        (tokenStep p s1 (tr, extra, now1)).authorization_codes
        = some { request := req, sub := sub, iat := now0,
                 exp := now0 + s.authorization_code_lifetime, used := true } := by
      simp [tokenStep, handle_token_request, hauth, hg, do_code_exchange, hcode, hlook1,
        hred, hcid, hexp, markCodeUsed, create_access_token, mintValue, lookupA]
    obtain ⟨j, hj, hju⟩ := runTokens_preserves_used p rest _ _ _ hstep rfl
    exact used_code_exchange_fails p _ tr2 extra3 now2 a2 c j hauth2 hg2 hc2 hj hju

/-- The test suite's well-formed code-exchange request for the first
minted code. -/
def trW : TokenRequest :=
  { grant_type := some "authorization_code", code := some "v0",
    redirect_uri := some "https://client.example.com",
    client_id := some "client1", client_secret := some "secret" }

/-- The state after minting one authorization code in the fixture. -/
def s1W : AuthorizationState := (create_authorization_code sW reqW "subX" 0).2

/-- Witness for C1 at the concrete fixture: the first exchange
succeeds, an immediate second attempt fails as invalid. -/
theorem C1_authorization_code_single_use_witness :
    isOkE (handle_token_request pW s1W trW none 10) = true ∧
    handle_token_request pW (runTokens pW (tokenStep pW s1W (trW, none, 10)) []) trW none 11
      = Except.error (OpError.invalidTokenRequest "code already used") := by
  have h := C1_authorization_code_single_use pW sW reqW "subX" 0 10 none trW
    "v0" s1W ("client1", clientW) rfl rfl rfl rfl rfl rfl (by decide)
  exact ⟨h.1, h.2 [] trW none 11 ("client1", clientW) rfl rfl rfl⟩

/-! ## C5: refresh-token grant -/

/-- A deleted key is gone from the store. -/
theorem lookupA_removeA_self {α : Type} (k : String) (l : List (String × α)) :
    lookupA k (removeA k l) = none := by
  induction l with
  | nil => rfl
  | cons e rest ih =>
    by_cases h : e.1 = k
    · simpa [removeA, List.filter_cons, h] using ih
    · simpa [removeA, List.filter_cons, h, lookupA] using ih

/-- The refresh grant with remaining lifetime at or above the rotation
threshold: a fresh access token, no rotation. -/
theorem do_refresh_ok_norotate (p : Provider) (s : AuthorizationState) (tr : TokenRequest)
    (rtv : String) (info : RefreshTokenInfo) (now : Int)
    (hrt : tr.refresh_token = some rtv)
    (hl : lookupA rtv s.refresh_tokens = some info)
    (hexp : ¬ info.exp < now)
    (hcond : ¬ info.exp - now < s.refresh_token_threshold) :
    do_refresh p s tr now = Except.ok
      ({ access_token := "v" ++ toString s.counter, token_type := "Bearer",
         expires_in := s.access_token_lifetime, id_token := none, refresh_token := none },
       (create_access_token s info.request info.sub (tr.scope.getD info.scope) now).2) := by
  simp [do_refresh, hrt, hl, hexp, hcond, create_access_token, mintValue]

/-- The refresh grant with remaining lifetime below the rotation
threshold: a fresh access token, a replacement refresh token, the old
one deleted. -/
theorem do_refresh_ok_rotate (p : Provider) (s : AuthorizationState) (tr : TokenRequest)
    (rtv : String) (info : RefreshTokenInfo) (now : Int)
    (hrt : tr.refresh_token = some rtv)
    (hl : lookupA rtv s.refresh_tokens = some info)
    (hexp : ¬ info.exp < now)
    (hcond : info.exp - now < s.refresh_token_threshold) :
    do_refresh p s tr now = Except.ok
      ({ access_token := "v" ++ toString s.counter, token_type := "Bearer",
         expires_in := s.access_token_lifetime, id_token := none,
         refresh_token := some ("v" ++ toString (s.counter + 1)) },
       { (create_access_token s info.request info.sub (tr.scope.getD info.scope) now).2 with
          counter := s.counter + 2,
          refresh_tokens :=
            ("v" ++ toString (s.counter + 1),
             { access_token_value := "v" ++ toString s.counter, request := info.request,
               sub := info.sub, scope := info.scope, iat := now,
               exp := now + s.refresh_token_lifetime })
              :: removeA rtv s.refresh_tokens }) := by
  simp [do_refresh, hrt, hl, hexp, hcond, create_access_token, mintValue, removeA]

/-- C5: a valid refresh_token grant mints a fresh access token; when
the refresh token's remaining lifetime is at or above the configured
rotation threshold the response carries no `refresh_token` field and
the presented refresh token remains in the store unchanged; when it is
below the threshold the response carries a newly issued refresh token
(present in the store, distinct from the old value — the minted value
is fresh) and the old refresh token is no longer in the store; and when
the `scope` parameter is omitted the minted access token is scoped to
the scope of the original authorization request. -/
theorem C5_refresh_token_rotation
    (p : Provider) (s : AuthorizationState) (tr : TokenRequest) (rtv : String)
    (info : RefreshTokenInfo) (now : Int) (extra : Option ExtraClaims) (a : String × Client)
    (hauth : authenticate_client p tr = Except.ok a)
    (hg : tr.grant_type = some "refresh_token")
    (hrt : tr.refresh_token = some rtv)
    (hl : lookupA rtv s.refresh_tokens = some info)
    (hexp : ¬ info.exp < now) :
    (s.refresh_token_threshold ≤ info.exp - now →
      ∃ resp s2, handle_token_request p s tr extra now = Except.ok (resp, s2) ∧
        resp.refresh_token = none ∧ s2.refresh_tokens = s.refresh_tokens ∧
        lookupA rtv s2.refresh_tokens = some info) ∧
    (info.exp - now < s.refresh_token_threshold →
      lookupA ("v" ++ toString (s.counter + 1)) s.refresh_tokens = none →
      ∃ resp s2 nv, handle_token_request p s tr extra now = Except.ok (resp, s2) ∧
        resp.refresh_token = some nv ∧
        (lookupA nv s2.refresh_tokens).isSome = true ∧
        lookupA rtv s2.refresh_tokens = none ∧ nv ≠ rtv) ∧
    (tr.scope = none →
      ∃ resp s2 ai, handle_token_request p s tr extra now = Except.ok (resp, s2) ∧
        lookupA resp.access_token s2.access_tokens = some ai ∧
        ai.scope = info.scope) := by
  have hmain : handle_token_request p s tr extra now = do_refresh p s tr now := by
    simp [handle_token_request, hauth, hg]
  refine ⟨?_, ?_, ?_⟩
  · intro hth
    have hcond : ¬ info.exp - now < s.refresh_token_threshold := by omega
    refine ⟨_, _, hmain.trans (do_refresh_ok_norotate p s tr rtv info now hrt hl hexp hcond),
      rfl, ?_, ?_⟩
    · simp [create_access_token, mintValue]
    · simpa [create_access_token, mintValue] using hl
  · intro hcond hfresh
    have hne : ("v" ++ toString (s.counter + 1)) ≠ rtv := by
      intro he
      rw [he, hl] at hfresh
      exact Option.noConfusion hfresh
    refine ⟨_, _, _, hmain.trans (do_refresh_ok_rotate p s tr rtv info now hrt hl hexp hcond),
      rfl, ?_, ?_, hne⟩
    · simp [lookupA]
    · simp [lookupA, hne, lookupA_removeA_self]
  · intro hscope
    by_cases hrot : info.exp - now < s.refresh_token_threshold
    · refine ⟨_, _,
        { request := info.request, sub := info.sub, scope := tr.scope.getD info.scope,
          iat := now, exp := now + s.access_token_lifetime },
        hmain.trans (do_refresh_ok_rotate p s tr rtv info now hrt hl hexp hrot), ?_, ?_⟩
      · simp [create_access_token, mintValue, lookupA]
      · simp [hscope]
    · refine ⟨_, _,
        { request := info.request, sub := info.sub, scope := tr.scope.getD info.scope,
          iat := now, exp := now + s.access_token_lifetime },
        hmain.trans (do_refresh_ok_norotate p s tr rtv info now hrt hl hexp hrot), ?_, ?_⟩
      · simp [create_access_token, mintValue, lookupA]
      · simp [hscope]

/-- A stored refresh token of the fixture, far from expiry. -/
def rtInfoW : RefreshTokenInfo :=
  { access_token_value := "a0", request := reqW, sub := "subX", scope := ["openid"],
    iat := 0, exp := 86400 }

/-- The fixture state holding that refresh token. -/
def sRtW : AuthorizationState :=
  { hash_fn := fun v => "H:" ++ v, refresh_tokens := [("rt0", rtInfoW)] }

/-- The test suite's refresh-grant request without a scope parameter. -/
def trRefreshW : TokenRequest :=
  { grant_type := some "refresh_token", refresh_token := some "rt0",
    client_id := some "client1", client_secret := some "secret", scope := none }

/-- Witness for C5 at the concrete fixture: above the rotation
threshold no refresh token is rotated, and the omitted scope defaults
to the original authorization's scope. -/
theorem C5_refresh_token_rotation_witness :
    (∃ resp s2, handle_token_request pW sRtW trRefreshW none 10 = Except.ok (resp, s2) ∧
      resp.refresh_token = none ∧ s2.refresh_tokens = sRtW.refresh_tokens ∧
      lookupA "rt0" s2.refresh_tokens = some rtInfoW) ∧
    (∃ resp s2 ai, handle_token_request pW sRtW trRefreshW none 10 = Except.ok (resp, s2) ∧
      lookupA resp.access_token s2.access_tokens = some ai ∧ ai.scope = rtInfoW.scope) := by
  have h := C5_refresh_token_rotation pW sRtW trRefreshW "rt0" rtInfoW 10 none
    ("client1", clientW) rfl rfl rfl rfl (by decide)
  exact ⟨h.1 (by decide), h.2.2 rfl⟩

/-! ## C8: userinfo -/

/-- Every requested claim name with a stored value reaches the resolved
claim set. -/
theorem mem_resolveClaimValues (p : Provider) (uid : String) (names : List String)
    (n : String) (v : TVal) (attrs : List (String × TVal))
    (ha : lookupA uid p.userinfo = some attrs) (hn : n ∈ names)
    (hv : lookupA n attrs = some v) :
    (n, v) ∈ resolveClaimValues p uid names := by
  simp only [resolveClaimValues, ha, List.mem_filterMap]
  exact ⟨n, hn, by simp [hv]⟩

/-- Every resolved claim comes from a requested name with that stored
value. -/
theorem resolveClaimValues_mem (p : Provider) (uid : String) (names : List String)
    (n : String) (v : TVal) (attrs : List (String × TVal))
    (ha : lookupA uid p.userinfo = some attrs)
    (hm : (n, v) ∈ resolveClaimValues p uid names) :
    n ∈ names ∧ lookupA n attrs = some v := by
  simp only [resolveClaimValues, ha, List.mem_filterMap] at hm
  obtain ⟨m, hmem, hmv⟩ := hm
  cases hv : lookupA m attrs with
  | none => rw [hv] at hmv; simp at hmv
  | some w =>
    rw [hv] at hmv
    simp at hmv
    obtain ⟨h1, h2⟩ := hmv
    subst h1
    subst h2
    exact ⟨hmem, hv⟩

/-- C8 (amended): a userinfo request with no bearer token fails with
`BearerTokenError`; one whose token is unknown or expired fails with
`InvalidUserinfoRequest`; and a valid, unexpired token yields exactly
the claims of the bound subject whose names lie in the UNION of the
scope-derived userinfo claims and the explicitly requested userinfo
claims — each resolved against the user claims store — with `sub`
always included. -/
theorem C8_userinfo_claims (p : Provider) (s : AuthorizationState) (now : Int) :
    (handle_userinfo_request p s none now
      = Except.error (OpError.bearerTokenError "missing access token")) ∧
    (∀ atv, lookupA atv s.access_tokens = none →
      handle_userinfo_request p s (some atv) now
        = Except.error (OpError.invalidUserinfoRequest "invalid access token")) ∧
    (∀ atv info, lookupA atv s.access_tokens = some info → info.exp < now →
      handle_userinfo_request p s (some atv) now
        = Except.error (OpError.invalidUserinfoRequest "invalid access token")) ∧
    (∀ atv info uid attrs resp,
      lookupA atv s.access_tokens = some info → ¬ info.exp < now →
      get_user_id_for_subject_identifier s info.sub = some uid →
      lookupA uid p.userinfo = some attrs →
      handle_userinfo_request p s (some atv) now = Except.ok resp →
      lookupA "sub" resp = some (TVal.s info.sub) ∧
      (∀ n v, n ∈ userinfoClaimNames info.scope info.request.claims_userinfo →
        lookupA n attrs = some v → (n, v) ∈ resp) ∧
      (∀ n v, (n, v) ∈ resp →
        (n, v) = ("sub", TVal.s info.sub) ∨
        (n ∈ userinfoClaimNames info.scope info.request.claims_userinfo ∧
         lookupA n attrs = some v))) := by
  refine ⟨by simp [handle_userinfo_request], ?_, ?_, ?_⟩
  · intro atv h
    simp [handle_userinfo_request, introspect_access_token, h]
  · intro atv info hl hexp
    simp [handle_userinfo_request, introspect_access_token, hl, hexp]
  · intro atv info uid attrs resp hl hexp huid ha hok
    simp only [handle_userinfo_request, introspect_access_token, hl, hexp, huid,
      if_false] at hok
    simp only [Except.ok.injEq] at hok
    subst hok
    refine ⟨by simp [lookupA], ?_, ?_⟩
    · intro n v hn hv
      exact List.mem_cons_of_mem _ (mem_resolveClaimValues p uid _ n v attrs ha hn hv)
    · intro n v hm
      rcases List.mem_cons.mp hm with h | h
      · exact Or.inl h
      · exact Or.inr (resolveClaimValues_mem p uid _ n v attrs ha h)

/-- The request behind the access token minted in
`test_handle_userinfo`: scope `openid profile`, with `email` explicitly
requested at the userinfo location. -/
def req8W : AuthnRequest :=
  { reqW with scope := ["openid", "profile"],
              claims_userinfo := [("email", none)] }

/-- The metadata of that access token. -/
def atInfoW8 : AccessTokenInfo :=
  { request := req8W, sub := "subX", scope := ["openid", "profile"],
    iat := 0, exp := 3600 }

/-- The fixture state holding that access token and the subject
binding. -/
def sW8 : AuthorizationState :=
  { hash_fn := fun v => "H:" ++ v,
    access_tokens := [("at0", atInfoW8)],
    subject_identifiers := [("subX", "user1")] }

/-- The userinfo response the handler produces for that token — the
response the in-repository test `test_handle_userinfo` asserts: all of
the user's stored claims, plus `sub`. -/
def uiRespW8 : List (String × TVal) :=
  [("sub", TVal.s "subX"), ("name", TVal.s "The T. Tester"),
   ("family_name", TVal.s "Tester"), ("given_name", TVal.s "The"),
   ("middle_name", TVal.s "Theodore"), ("nickname", TVal.s "testster"),
   ("email", TVal.s "testster@example.com")]

/-- Counterexample to C8 as stated: at the very input of the
in-repository test `test_handle_userinfo` (scope `openid profile`,
explicitly requested userinfo claim `email`), the INTERSECTION of the
scope-derived and the explicitly requested userinfo claim names is
empty — `email` is not a `profile` scope claim — so the claim predicts
a response of `sub` alone; the handler (and the test) instead return
the UNION: the profile claims and `email` are all present. -/
theorem C8_userinfo_intersection_counterexample :
    handle_userinfo_request pW sW8 (some "at0") 10 = Except.ok uiRespW8 ∧
    lookupA "email" uiRespW8 = some (TVal.s "testster@example.com") ∧
    lookupA "name" uiRespW8 = some (TVal.s "The T. Tester") ∧
    userinfoClaimNamesIntersection ["openid", "profile"] [("email", none)] = [] := by
  exact ⟨rfl, rfl, rfl, rfl⟩

/-- The stored attribute set of the fixture user. -/
def userAttrsW : List (String × TVal) :=
  [("name", TVal.s "The T. Tester"), ("family_name", TVal.s "Tester"),
   ("given_name", TVal.s "The"), ("middle_name", TVal.s "Theodore"),
   ("nickname", TVal.s "testster"), ("email", TVal.s "testster@example.com")]

/-- Witness for the amended C8 at the test's concrete input: a missing
bearer token is rejected, a valid token's response carries `sub` and
the explicitly requested `email` claim. -/
theorem C8_userinfo_claims_witness :
    handle_userinfo_request pW sW8 none 10
      = Except.error (OpError.bearerTokenError "missing access token") ∧
    lookupA "sub" uiRespW8 = some (TVal.s "subX") ∧
    ("email", TVal.s "testster@example.com") ∈ uiRespW8 := by
  have h := C8_userinfo_claims pW sW8 10
  have h4 := h.2.2.2 "at0" atInfoW8 "user1" userAttrsW uiRespW8 rfl (by decide) rfl rfl rfl
  exact ⟨h.1, h4.1, h4.2.1 "email" (TVal.s "testster@example.com") (by decide) rfl⟩
